import Mathlib

/-!
Verification development for the CrookedSentry manual coverage estimator
(`coverage_analyzer.py`).

The script is a single linear pass: it enumerates Swift source files under
the directory `CrookedSentry` (recursively, excluding paths containing
"Preview", "Generated" or ".build"), enumerates test files directly inside
`CrookedSentryTests`, counts occurrences of the literal marker `@Test(` in
each test file's contents, and derives an overall coverage percentage
(size of a hardcoded mapping table divided by the number of source files),
a security-category percentage, and a three-tier verdict.

The filesystem is modelled as a list of files, each with its directory
components (relative to the working directory), base name, and contents.
`contents = none` models a file whose `open`/`read` raises an exception.
Percentages are modelled over `ℚ` (Python computes them with `/`, i.e.
float division of small integers; the spec speaks of the exact rational
before display formatting).  A run of the script is modelled as
`Except String Report`: `Except.error "IOError"` models the unhandled
exception raised when a test file cannot be read, and
`Except.error "ZeroDivisionError"` the unhandled division by zero when no
source file is enumerated.
-/

/-- A file in the modelled filesystem: directory components relative to the
working directory, base name, and contents (`none` models a file whose
read raises an exception). -/
structure FSFile where
  dir : List String
  name : String
  contents : Option String
deriving DecidableEq

/-- `str(path)` for a POSIX `pathlib.Path`: components joined by `/`. -/
def path_str (f : FSFile) : String :=
  String.intercalate "/" (f.dir ++ [f.name])

/-- Python's substring test `pat in s`, on character lists: scans every
suffix of the haystack for the pattern as a prefix. -/
def containsSeq (pat : List Char) : List Char → Bool
  | [] => pat.isEmpty
  | c :: cs => pat.isPrefixOf (c :: cs) || containsSeq pat cs

/-- Python's `pat in s` for strings. -/
def str_contains (s pat : String) : Bool :=
  containsSeq pat.data s.data

/-- Does `s` end with the suffix `suf`?  (`rglob("*.swift")` and
`glob("*.swift")` select exactly the names ending in `.swift`.) -/
def str_ends_with (s suf : String) : Bool :=
  List.isSuffixOf suf.data s.data

/-- The path substrings excluded from source enumeration
(line 18 of `coverage_analyzer.py`). -/
def exclude_substrings : List String := ["Preview", "Generated", ".build"]

/-- The security-category keywords (line 77 of `coverage_analyzer.py`). -/
def security_keywords : List String := ["Security", "VPN", "Network", "Auth"]

/-- Source enumeration (lines 16-19): every file at any depth under the
root `CrookedSentry` whose name matches `*.swift` and whose path string
contains none of the excluded substrings. -/
def source_files (fs : List FSFile) : List FSFile :=
  fs.filter (fun f =>
    f.dir.head? == some "CrookedSentry" &&
    str_ends_with f.name ".swift" &&
    !(exclude_substrings.any (fun skip => str_contains (path_str f) skip)))

/-- Test enumeration (line 22): files directly inside `CrookedSentryTests`
whose name matches `*.swift`; no exclusion filter is applied. -/
def test_files (fs : List FSFile) : List FSFile :=
  fs.filter (fun f =>
    f.dir == ["CrookedSentryTests"] && str_ends_with f.name ".swift")

/-- The hardcoded source-file to test-file mapping (lines 33-46), in
insertion order.  All twelve keys are distinct, so its length is the
Python `len(coverage_mapping)`. -/
def coverage_mapping : List (String × String) :=
  [("FrigateEventAPIClient.swift", "FrigateEventAPIClientTests.swift"),
   ("SettingsStore.swift", "SettingsStoreTests.swift"),
   ("CameraFeedCard.swift", "CameraFeedLoadingTests.swift"),
   ("ImageLoader.swift", "CameraFeedLoadingTests.swift"),
   ("LiveFeedAPIClient.swift", "CameraFeedLoadingTests.swift"),
   ("NetworkSecurityDebugger.swift", "NetworkSecurityDebuggerTests.swift"),
   ("SecureAPIClient.swift", "SecureAPIClientTests.swift"),
   ("NetworkSecurityValidator.swift", "NetworkSecurityValidatorTests.swift"),
   ("VPNManager.swift", "VPNConnectionStateTests.swift"),
   ("NetworkManager.swift", "SecureAPIClientTests.swift"),
   ("HTTPMethod.swift", "FrigateEventAPIClientTests.swift"),
   ("AuthHeaders.swift", "NetworkSecurityDebuggerTests.swift")]

/-- The test-declaration marker: the literal regex `@Test\(`
(line 58 of `coverage_analyzer.py`). -/
def test_marker : List Char := ['@', 'T', 'e', 's', 't', '(']

/-- Left-to-right non-overlapping scan for the marker, exactly as
`re.findall` counts matches of the literal pattern: on a match the scan
resumes after the match (6 characters later), otherwise it advances by
one.  The fuel argument (instantiated with the string length in
`count_matches`) makes the recursion structural. -/
def countAux : Nat → List Char → Nat
  | _, [] => 0
  | 0, _ :: _ => 0
  | fuel + 1, c :: cs =>
    if test_marker.isPrefixOf (c :: cs) then 1 + countAux fuel (cs.drop 5)
    else countAux fuel cs

/-- `len(re.findall(r'@Test\(', s))`: the number of non-overlapping
occurrences of the marker in `s`. -/
def count_matches (s : List Char) : Nat :=
  countAux s.length s

/-- The number of positions at which the marker occurs.  Because the
marker `@Test(` has no nontrivial border, occurrences can never overlap
and this agrees with the non-overlapping scan (`countAux_eq_countOcc`). -/
def countOcc : List Char → Nat
  | [] => 0
  | c :: cs => (if test_marker.isPrefixOf (c :: cs) then 1 else 0) + countOcc cs

/-- The test-counting loop (lines 54-59): sums the marker count over the
test files' contents, in order; `none` models the unhandled exception
raised by `open`/`read` on an unreadable file. -/
def total_tests : List FSFile → Option Nat
  | [] => some 0
  | f :: rest =>
    match f.contents with
    | none => none
    | some content => (total_tests rest).map (fun n => count_matches content.data + n)

/-- The security-category filter (lines 76-78): source files whose path
string contains at least one keyword as a case-sensitive substring. -/
def security_files (src : List FSFile) : List FSFile :=
  src.filter (fun f => security_keywords.any (fun k => str_contains (path_str f) k))

/-- The covered security files (line 80): security files whose base name
is a key of the mapping table. -/
def security_covered (src : List FSFile) (mapping : List (String × String)) : List FSFile :=
  (security_files src).filter (fun f => (mapping.map Prod.fst).contains f.name)

/-- The security percentage (line 81): `covered / total * 100` when the
category is nonempty, `0` otherwise. -/
def security_coverage (src : List FSFile) (mapping : List (String × String)) : ℚ :=
  if security_files src = [] then 0
  else ((security_covered src mapping).length : ℚ) / ((security_files src).length : ℚ) * 100

/-- The three-tier verdict (line 88), a function of the overall coverage
percentage only. -/
def verdict_of (p : ℚ) : String :=
  if p ≥ 80 then "EXCELLENT" else if p ≥ 60 then "GOOD" else "NEEDS IMPROVEMENT"

/-- The quantities the report prints. -/
structure Report where
  source_count : Nat
  test_file_count : Nat
  critical_covered : Nat
  total_test_count : Nat
  coverage_percentage : ℚ
  security_total : Nat
  security_covered_count : Nat
  security_pct : ℚ
  verdict : String
deriving DecidableEq

/-- Python's `f"{q:.1f}"` display formatting of a percentage, as the
rational it prints: the value rounded to one decimal place.  (CPython
rounds the underlying binary float to nearest; for the values arising
here the two differ only at exact `.x5` ties, which do not occur.) -/
def display_pct (q : ℚ) : ℚ :=
  ((⌊q * 10 + 1 / 2⌋ : ℤ) : ℚ) / 10

/-- The whole run of `analyze_coverage`, parametrised by the mapping table
(the Python script hardcodes `coverage_mapping`; the parameter makes the
dependence of each reported figure on the table explicit).  The stages
appear in the script's order: enumeration, test counting (which raises on
the first unreadable file, line 56), then the overall percentage
(line 69, which raises `ZeroDivisionError` when no source file was
enumerated), the security block and the verdict. -/
def analyze_coverage_with (fs : List FSFile) (mapping : List (String × String)) :
    Except String Report :=
  let src := source_files fs
  let tst := test_files fs
  match total_tests tst with
  | none => Except.error "IOError"
  | some n =>
    if src.length = 0 then Except.error "ZeroDivisionError"
    else
      let critical := mapping.length
      let pct := (critical : ℚ) / (src.length : ℚ) * 100
      Except.ok
        { source_count := src.length
          test_file_count := tst.length
          critical_covered := critical
          total_test_count := n
          coverage_percentage := pct
          security_total := (security_files src).length
          security_covered_count := (security_covered src mapping).length
          security_pct := security_coverage src mapping
          verdict := verdict_of pct }

/-- `analyze_coverage()` as the script runs it, with the hardcoded table. -/
def analyze_coverage (fs : List FSFile) : Except String Report :=
  analyze_coverage_with fs coverage_mapping

/-- A sample filesystem: three eligible source files, none matching a
security keyword, and no test files. -/
def fs1 : List FSFile :=
  [⟨["CrookedSentry"], "Alpha.swift", some ""⟩,
   ⟨["CrookedSentry"], "Beta.swift", some ""⟩,
   ⟨["CrookedSentry"], "Gamma.swift", some ""⟩]

/-- The report the script produces on `fs1` with the built-in table:
12 mapping keys over 3 source files gives 400 percent. -/
def r1 : Report :=
  { source_count := 3
    test_file_count := 0
    critical_covered := 12
    total_test_count := 0
    coverage_percentage := 400
    security_total := 0
    security_covered_count := 0
    security_pct := 0
    verdict := "EXCELLENT" }

/-- The end-to-end scenario of the spec (section 8): 12 eligible source
files, 3 of which match the keyword "Security", and two test files with
4 and 6 marker occurrences. -/
def scenario_fs : List FSFile :=
  [⟨["CrookedSentry"], "SecurityCamera.swift", some ""⟩,
   ⟨["CrookedSentry"], "SecurityLog.swift", some ""⟩,
   ⟨["CrookedSentry"], "SecurityPolicy.swift", some ""⟩,
   ⟨["CrookedSentry"], "AppDelegate.swift", some ""⟩,
   ⟨["CrookedSentry"], "HomeView.swift", some ""⟩,
   ⟨["CrookedSentry"], "CameraList.swift", some ""⟩,
   ⟨["CrookedSentry"], "EventList.swift", some ""⟩,
   ⟨["CrookedSentry"], "SettingsView.swift", some ""⟩,
   ⟨["CrookedSentry"], "Dashboard.swift", some ""⟩,
   ⟨["CrookedSentry"], "Storage.swift", some ""⟩,
   ⟨["CrookedSentry"], "Player.swift", some ""⟩,
   ⟨["CrookedSentry"], "Utils.swift", some ""⟩,
   ⟨["CrookedSentryTests"], "AlphaTests.swift",
     some "@Test( a\n@Test( b\n@Test( c\n@Test( d\n"⟩,
   ⟨["CrookedSentryTests"], "BetaTests.swift",
     some "@Test( a\n@Test( b\n@Test( c\n@Test( d\n@Test( e\n@Test( f\n"⟩]

/-- The scenario's five-entry mapping table: the three security files are
keys, plus two further entries. -/
def scenario_mapping : List (String × String) :=
  [("SecurityCamera.swift", "SecurityCameraTests.swift"),
   ("SecurityLog.swift", "SecurityLogTests.swift"),
   ("SecurityPolicy.swift", "SecurityPolicyTests.swift"),
   ("Dashboard.swift", "DashboardTests.swift"),
   ("Storage.swift", "StorageTests.swift")]

/-- A filesystem whose source root `CrookedSentry` does not exist (the
traversal finds nothing under it), while the test directory holds one
readable test file. -/
def fs_missing_source : List FSFile :=
  [⟨["CrookedSentryTests"], "AlphaTests.swift", some "@Test( example\n"⟩]

/-- A filesystem with an eligible source file and a test file whose read
raises (modelled by `contents = none`). -/
def fs_unreadable : List FSFile :=
  [⟨["CrookedSentry"], "Alpha.swift", some ""⟩,
   ⟨["CrookedSentryTests"], "BrokenTests.swift", none⟩,
   ⟨["CrookedSentryTests"], "GoodTests.swift", some "@Test( x\n"⟩]

theorem isPrefixOf_iff : ∀ (p s : List Char), p.isPrefixOf s = true ↔ ∃ t, p ++ t = s := by
  intro p
  induction p with
  | nil =>
    intro s
    simp [List.isPrefixOf]
  | cons a as ih =>
    intro s
    cases s with
    | nil => simp [List.isPrefixOf]
    | cons b bs =>
      simp only [List.isPrefixOf, Bool.and_eq_true, beq_iff_eq, ih bs, List.cons_append,
        List.cons.injEq]
      constructor
      · rintro ⟨rfl, t, rfl⟩
        exact ⟨t, rfl, rfl⟩
      · rintro ⟨t, rfl, rfl⟩
        exact ⟨rfl, t, rfl⟩

theorem isSuffixOf_iff (suf s : List Char) :
    suf.isSuffixOf s = true ↔ ∃ pre, pre ++ suf = s := by
  unfold List.isSuffixOf
  rw [isPrefixOf_iff]
  constructor
  · rintro ⟨t, ht⟩
    refine ⟨t.reverse, ?_⟩
    have := congrArg List.reverse ht
    simpa [List.reverse_append] using this
  · rintro ⟨pre, rfl⟩
    exact ⟨pre.reverse, by simp [List.reverse_append]⟩

theorem containsSeq_iff (pat : List Char) :
    ∀ s : List Char, containsSeq pat s = true ↔ ∃ pre post, pre ++ pat ++ post = s := by
  intro s
  induction s with
  | nil =>
    simp only [containsSeq, List.isEmpty_iff]
    constructor
    · rintro rfl
      exact ⟨[], [], rfl⟩
    · rintro ⟨pre, post, h⟩
      rcases List.append_eq_nil.mp h with ⟨h1, rfl⟩
      exact (List.append_eq_nil.mp h1).2
  | cons c cs ih =>
    simp only [containsSeq, Bool.or_eq_true, isPrefixOf_iff, ih]
    constructor
    · rintro (⟨t, ht⟩ | ⟨pre, post, hp⟩)
      · exact ⟨[], t, by simpa using ht⟩
      · exact ⟨c :: pre, post, by simp [hp]⟩
    · rintro ⟨pre, post, h⟩
      cases pre with
      | nil =>
        left
        exact ⟨post, by simpa using h⟩
      | cons x xs =>
        right
        rw [List.cons_append, List.cons_append, List.cons.injEq] at h
        exact ⟨xs, post, h.2⟩

theorem isPrefixOf_append_of_le :
    ∀ (p s t : List Char), p.length ≤ s.length →
      p.isPrefixOf (s ++ t) = p.isPrefixOf s := by
  intro p
  induction p with
  | nil => intro s t _; simp [List.isPrefixOf]
  | cons a as ih =>
    intro s t h
    cases s with
    | nil => simp at h
    | cons b bs =>
      simp only [List.cons_append, List.isPrefixOf, List.append_eq]
      rw [ih bs t (by simpa using Nat.le_of_succ_le_succ h)]

theorem marker_not_at_of_ne (c : Char) (x : List Char) (h : c ≠ '@') :
    test_marker.isPrefixOf (c :: x) = false := by
  simp only [test_marker, List.isPrefixOf, Bool.and_eq_false_iff]
  left
  simpa using fun hc => h hc.symm

theorem countOcc_marker_head (t : List Char) :
    countOcc (test_marker ++ t) = 1 + countOcc t := by
  have h0 : test_marker.isPrefixOf (test_marker ++ t) = true := by
    rw [isPrefixOf_iff]; exact ⟨t, rfl⟩
  show countOcc ('@' :: 'T' :: 'e' :: 's' :: 't' :: '(' :: t) = 1 + countOcc t
  rw [countOcc, countOcc, countOcc, countOcc, countOcc, countOcc]
  rw [show ('@' :: 'T' :: 'e' :: 's' :: 't' :: '(' :: t) = test_marker ++ t from rfl] at *
  rw [h0]
  rw [marker_not_at_of_ne 'T' _ (by decide), marker_not_at_of_ne 'e' _ (by decide),
    marker_not_at_of_ne 's' _ (by decide), marker_not_at_of_ne 't' _ (by decide),
    marker_not_at_of_ne '(' _ (by decide)]
  simp

theorem countAux_eq_countOcc : ∀ (fuel : Nat) (s : List Char), s.length ≤ fuel →
    countAux fuel s = countOcc s := by
  intro fuel
  induction fuel with
  | zero =>
    intro s hs
    have : s = [] := List.length_eq_zero.mp (Nat.le_zero.mp hs)
    subst this
    rfl
  | succ n ih =>
    intro s hs
    cases s with
    | nil => rfl
    | cons c cs =>
      by_cases hm : test_marker.isPrefixOf (c :: cs) = true
      · obtain ⟨t, ht⟩ := (isPrefixOf_iff _ _).mp hm
        have hdrop : cs.drop 5 = t := by
          have h6 : (test_marker ++ t).drop 6 = t := by
            simp [test_marker]
          rw [ht] at h6
          simpa using h6
        have hlen : t.length ≤ n := by
          have := congrArg List.length ht
          simp [test_marker] at this
          simp at hs
          omega
        have hhead : countOcc (c :: cs) = 1 + countOcc t := by
          rw [← ht]
          exact countOcc_marker_head t
        rw [countAux, if_pos hm, hdrop, ih t hlen, hhead]
      · rw [countAux, if_neg hm, countOcc, if_neg hm]
        simp only [Nat.zero_add]
        exact ih cs (by simpa using Nat.le_of_succ_le_succ hs)

theorem count_matches_eq_countOcc (s : List Char) : count_matches s = countOcc s :=
  countAux_eq_countOcc s.length s (Nat.le_refl _)

theorem mem_drop_last_cons (x c : Char) (cs : List Char)
    (hx : x ∈ cs.drop (cs.length - 5)) :
    x ∈ (c :: cs).drop ((c :: cs).length - 5) := by
  rcases le_or_lt cs.length 4 with h4 | h4
  · have h0 : (c :: cs).length - 5 = 0 := by simp; omega
    rw [h0, List.drop_zero]
    exact List.mem_cons_of_mem c (List.mem_of_mem_drop hx)
  · have h1 : (c :: cs).length - 5 = (cs.length - 5) + 1 := by simp; omega
    rw [h1, List.drop_succ_cons]
    exact hx

theorem countOcc_append (A B : List Char) (h : '@' ∉ A.drop (A.length - 5)) :
    countOcc (A ++ B) = countOcc A + countOcc B := by
  induction A with
  | nil => simp [countOcc]
  | cons c cs ih =>
    have h' : '@' ∉ cs.drop (cs.length - 5) := fun hx => h (mem_drop_last_cons _ c cs hx)
    have hrec := ih h'
    have hcond : test_marker.isPrefixOf (c :: (cs ++ B)) = test_marker.isPrefixOf (c :: cs) := by
      rcases le_or_lt 5 cs.length with h5 | h5
      · have := isPrefixOf_append_of_le test_marker (c :: cs) B (by simp [test_marker]; omega)
        simpa using this
      · have hc : c ≠ '@' := by
          intro hc
          apply h
          have h0 : (c :: cs).length - 5 = 0 := by simp; omega
          rw [h0, List.drop_zero, hc]
          exact List.mem_cons_self _ _
        rw [marker_not_at_of_ne c _ hc, marker_not_at_of_ne c _ hc]
    show countOcc (c :: (cs ++ B)) = countOcc (c :: cs) + countOcc B
    rw [countOcc, countOcc, hrec, hcond, Nat.add_assoc]

/-- Claim C8 (counterexample): test-case counting is NOT additive over
concatenation for arbitrary strings: with `A = "@Test"` and `B = "("`
the marker straddles the boundary, so the concatenation contains one
occurrence while each part contains none. -/
theorem c8_counterexample :
    count_matches ("@Test".data ++ "(".data) ≠
      count_matches "@Test".data + count_matches "(".data := by
  decide

/-- Claim C8 (amended): test-case counting is additive over concatenation
provided no marker occurrence straddles the boundary; it suffices that the
character `@` does not occur among the last five characters of the first
string.  (The counterexample shows some such side condition is forced.) -/
theorem c8_additive_no_straddle (A B : List Char)
    (h : '@' ∉ A.drop (A.length - 5)) :
    count_matches (A ++ B) = count_matches A + count_matches B := by
  rw [count_matches_eq_countOcc, count_matches_eq_countOcc, count_matches_eq_countOcc]
  exact countOcc_append A B h

/-- Witness for the amended claim C8 at concrete strings. -/
theorem c8_additive_no_straddle_witness :
    count_matches ("ab".data ++ "@Test( x".data) =
      count_matches "ab".data + count_matches "@Test( x".data :=
  c8_additive_no_straddle "ab".data "@Test( x".data (by decide)

/-- Claim C10: the security-category coverage percentage is always within
0 and 100, for every list of enumerated source files and every mapping
table: the covered security files are a filter of the security files, so
their count never exceeds the category total, and the empty category is
reported as 0. -/
theorem c10_security_bounded (src : List FSFile) (mapping : List (String × String)) :
    0 ≤ security_coverage src mapping ∧ security_coverage src mapping ≤ 100 := by
  unfold security_coverage
  split_ifs with h
  · norm_num
  · have hlen : (security_covered src mapping).length ≤ (security_files src).length :=
      List.length_filter_le _ _
    have hpos : 0 < (security_files src).length := List.length_pos.mpr h
    have hQ : (0 : ℚ) < ((security_files src).length : ℚ) := by exact_mod_cast hpos
    constructor
    · positivity
    · rw [div_mul_eq_mul_div, div_le_iff₀ hQ]
      have hc : ((security_covered src mapping).length : ℚ) ≤
          ((security_files src).length : ℚ) := by exact_mod_cast hlen
      linarith

/-- Claim C6: when the source root does not exist the enumeration yields
the empty list, and the run then dies with an unhandled
`ZeroDivisionError` at the overall-percentage division (line 69), rather
than completing or failing with a clear directory-not-found error. -/
theorem c6_missing_source_root :
    source_files fs_missing_source = [] ∧
    analyze_coverage fs_missing_source = Except.error "ZeroDivisionError" := by
  constructor
  · with_unfolding_all rfl
  · with_unfolding_all rfl

/-- Claim C7: when an enumerated test file cannot be read, the unguarded
`open`/`read` (line 56) raises and the run aborts with no report at all,
rather than skipping the file or otherwise producing a complete report. -/
theorem c7_unreadable_test_file :
    analyze_coverage fs_unreadable = Except.error "IOError" := by
  with_unfolding_all rfl

/-- Claim C1: for every run that completes (the mapping table has K keys
and N > 0 source files were enumerated), the reported overall coverage
percentage is exactly the rational K / N * 100; it is 100 when K = N and
0 when K = 0.  The numerator is the table length alone — the formula never
inspects which files were enumerated, so the percentage is independent of
whether the table's keys occur among them. -/
theorem c1_overall_coverage (fs : List FSFile) (mapping : List (String × String)) (r : Report)
    (h : analyze_coverage_with fs mapping = Except.ok r) :
    r.coverage_percentage = (mapping.length : ℚ) / ((source_files fs).length : ℚ) * 100 ∧
    (mapping.length = (source_files fs).length → r.coverage_percentage = 100) ∧
    (mapping.length = 0 → r.coverage_percentage = 0) := by
  simp only [analyze_coverage_with] at h
  split at h
  · exact absurd h (by simp)
  · split at h
    · exact absurd h (by simp)
    · rename_i hN
      rw [Except.ok.injEq] at h
      subst h
      refine ⟨rfl, ?_, ?_⟩
      · intro hk
        have hN' : ((source_files fs).length : ℚ) ≠ 0 := by
          exact_mod_cast hN
        simp only [hk]
        rw [div_self hN']
        norm_num
      · intro hk
        simp [hk]

/-- Witness for claim C1: a concrete successful run (three eligible
source files against the built-in twelve-key table). -/
theorem c1_overall_coverage_witness :
    r1.coverage_percentage =
      (coverage_mapping.length : ℚ) / ((source_files fs1).length : ℚ) * 100 ∧
    (coverage_mapping.length = (source_files fs1).length → r1.coverage_percentage = 100) ∧
    (coverage_mapping.length = 0 → r1.coverage_percentage = 0) :=
  c1_overall_coverage fs1 coverage_mapping r1 (by with_unfolding_all rfl)

/-- Claim C2: the security category is exactly the enumerated source
files whose path string contains some fixed keyword as a (case-sensitive)
substring; the covered subset is exactly the category files whose base
name is a mapping-table key; the percentage is covered / total * 100 for
a nonempty category and 0 (not an error) for an empty one. -/
theorem c2_security_category (fs : List FSFile) (mapping : List (String × String)) :
    (∀ f, f ∈ security_files (source_files fs) ↔
        f ∈ source_files fs ∧ ∃ k ∈ security_keywords,
          ∃ pre post, pre ++ k.data ++ post = (path_str f).data) ∧
    (∀ f, f ∈ security_covered (source_files fs) mapping ↔
        f ∈ security_files (source_files fs) ∧ f.name ∈ mapping.map Prod.fst) ∧
    (security_files (source_files fs) ≠ [] →
      security_coverage (source_files fs) mapping =
        ((security_covered (source_files fs) mapping).length : ℚ) /
          ((security_files (source_files fs)).length : ℚ) * 100) ∧
    (security_files (source_files fs) = [] →
      security_coverage (source_files fs) mapping = 0) := by
  refine ⟨?_, ?_, ?_, ?_⟩
  · intro f
    simp only [security_files, List.mem_filter, List.any_eq_true, str_contains,
      containsSeq_iff]
  · intro f
    simp only [security_covered, List.mem_filter, List.contains, List.elem_iff]
  · intro h
    unfold security_coverage
    rw [if_neg h]
  · intro h
    unfold security_coverage
    rw [if_pos h]

/-- Witness for claim C2: on a filesystem where no enumerated file
matches a keyword, the security coverage is 0 rather than an error. -/
theorem c2_security_category_witness :
    security_coverage (source_files fs1) coverage_mapping = 0 :=
  (c2_security_category fs1 coverage_mapping).2.2.2 (by with_unfolding_all rfl)

/-- Claim C3: the verdict is "EXCELLENT" iff the overall percentage is at
least 80, "GOOD" iff it is at least 60 and below 80, and
"NEEDS IMPROVEMENT" iff it is below 60; exactly 80 gives "EXCELLENT" and
exactly 60 gives "GOOD"; and in every completed run the report's verdict
is `verdict_of` applied to the overall percentage — a function of that
percentage only, never of the security percentage. -/
theorem c3_verdict_tiers :
    (∀ p : ℚ, (verdict_of p = "EXCELLENT" ↔ 80 ≤ p) ∧
      (verdict_of p = "GOOD" ↔ 60 ≤ p ∧ p < 80) ∧
      (verdict_of p = "NEEDS IMPROVEMENT" ↔ p < 60)) ∧
    verdict_of 80 = "EXCELLENT" ∧ verdict_of 60 = "GOOD" ∧
    (∀ (fs : List FSFile) (m : List (String × String)) (r : Report),
      analyze_coverage_with fs m = Except.ok r →
        r.verdict = verdict_of r.coverage_percentage) := by
  have tiers : ∀ p : ℚ, (verdict_of p = "EXCELLENT" ↔ 80 ≤ p) ∧
      (verdict_of p = "GOOD" ↔ 60 ≤ p ∧ p < 80) ∧
      (verdict_of p = "NEEDS IMPROVEMENT" ↔ p < 60) := by
    intro p
    unfold verdict_of
    split_ifs with h1 h2
    · refine ⟨iff_of_true rfl h1, ?_, ?_⟩
      · exact iff_of_false (by decide) (fun hc => absurd h1 (not_le.mpr hc.2))
      · exact iff_of_false (by decide) (fun hc => absurd h1 (not_le.mpr (by linarith)))
    · refine ⟨iff_of_false (by decide) h1, ?_, ?_⟩
      · exact iff_of_true rfl ⟨h2, not_le.mp h1⟩
      · exact iff_of_false (by decide) (fun hc => absurd h2 (not_le.mpr hc))
    · refine ⟨iff_of_false (by decide) h1, ?_, ?_⟩
      · exact iff_of_false (by decide) (fun hc => absurd hc.1 h2)
      · exact iff_of_true rfl (not_le.mp h2)
  refine ⟨tiers, ?_, ?_, ?_⟩
  · exact (tiers 80).1.mpr (by norm_num)
  · exact (tiers 60).2.1.mpr (by norm_num)
  · intro fs m r h
    simp only [analyze_coverage_with] at h
    split at h
    · exact absurd h (by simp)
    · split at h
      · exact absurd h (by simp)
      · rw [Except.ok.injEq] at h
        subst h
        rfl

/-- Witness for claim C3: the verdict of a concrete completed run is the
tier function of its overall percentage. -/
theorem c3_verdict_tiers_witness :
    r1.verdict = verdict_of r1.coverage_percentage :=
  c3_verdict_tiers.2.2.2 fs1 coverage_mapping r1 (by with_unfolding_all rfl)

/-- Claim C4: a file is enumerated as a source file iff it lies (at any
depth) under the root `CrookedSentry`, its name ends in `.swift`, and its
path string contains none of the exclusion substrings; it is enumerated
as a test file iff it lies directly inside `CrookedSentryTests` and its
name ends in `.swift`, with no exclusion filter applied. -/
theorem c4_enumeration (fs : List FSFile) (f : FSFile) :
    (f ∈ source_files fs ↔
      f ∈ fs ∧ f.dir.head? = some "CrookedSentry" ∧
        (∃ pre, pre ++ ".swift".data = f.name.data) ∧
        ∀ p ∈ exclude_substrings, ¬ ∃ pre post, pre ++ p.data ++ post = (path_str f).data) ∧
    (f ∈ test_files fs ↔
      f ∈ fs ∧ f.dir = ["CrookedSentryTests"] ∧
        ∃ pre, pre ++ ".swift".data = f.name.data) := by
  constructor
  · simp only [source_files, List.mem_filter, Bool.and_eq_true, beq_iff_eq,
      str_ends_with, isSuffixOf_iff, Bool.not_eq_true', List.any_eq_false,
      str_contains, containsSeq_iff]
    tauto
  · simp only [test_files, List.mem_filter, Bool.and_eq_true, beq_iff_eq,
      str_ends_with, isSuffixOf_iff]

/-- Claim C5: the end-to-end scenario — 12 eligible source files of which
3 match "Security" and are keys of the 5-entry table, plus test files
with 4 and 6 marker occurrences — yields exactly: 12 source files, 5
critical files covered, overall coverage 125/3 (displayed 41.7), verdict
"NEEDS IMPROVEMENT", 3 security files, 3 covered, security coverage 100,
and 10 total test cases. -/
theorem c5_scenario :
    analyze_coverage_with scenario_fs scenario_mapping = Except.ok
      { source_count := 12
        test_file_count := 2
        critical_covered := 5
        total_test_count := 10
        coverage_percentage := 125 / 3
        security_total := 3
        security_covered_count := 3
        security_pct := 100
        verdict := "NEEDS IMPROVEMENT" } ∧
    display_pct (125 / 3) = 417 / 10 := by
  constructor
  · with_unfolding_all rfl
  · with_unfolding_all rfl

/-- Claim C9: whenever a run completes with fewer than 12 enumerated
source files, the overall percentage exceeds 100 (it is never clamped)
and the verdict is "EXCELLENT", because the numerator is the fixed
12-entry table size. -/
theorem c9_unclamped (fs : List FSFile) (r : Report)
    (h : analyze_coverage fs = Except.ok r)
    (h1 : 0 < (source_files fs).length) (h2 : (source_files fs).length < 12) :
    100 < r.coverage_percentage ∧ r.verdict = "EXCELLENT" := by
  simp only [analyze_coverage, analyze_coverage_with] at h
  split at h
  · exact absurd h (by simp)
  · split at h
    · exact absurd h (by simp)
    · rw [Except.ok.injEq] at h
      subst h
      have hK : (coverage_mapping.length : ℚ) = 12 := by norm_num [coverage_mapping]
      have hNQ : (0 : ℚ) < ((source_files fs).length : ℚ) := by exact_mod_cast h1
      have hN12 : ((source_files fs).length : ℚ) < 12 := by exact_mod_cast h2
      have hgt : (100 : ℚ) <
          (coverage_mapping.length : ℚ) / ((source_files fs).length : ℚ) * 100 := by
        rw [hK, div_mul_eq_mul_div, lt_div_iff₀ hNQ]
        linarith
      refine ⟨hgt, ?_⟩
      show verdict_of _ = _
      unfold verdict_of
      rw [if_pos]
      rw [ge_iff_le, hK, div_mul_eq_mul_div, le_div_iff₀ hNQ]
      linarith

/-- Witness for claim C9: a concrete run over three source files reports
400 percent and "EXCELLENT". -/
theorem c9_unclamped_witness :
    100 < r1.coverage_percentage ∧ r1.verdict = "EXCELLENT" :=
  c9_unclamped fs1 r1 (by with_unfolding_all rfl) (by decide) (by decide)
